import Mathlib

/-!
Shallow embedding of the napalm-f5 driver (src/napalm_f5/f5.py and
src/napalm_f5/exceptions.py).

The driver class `F5Driver` holds a session handle (`device`), the staged
artifact's remembered basename (`filename`) and the replace-vs-merge flag
(`config_replace`).  Remote interaction goes through the bigrest `BIGIP`
client, whose observable behaviour we model as a `DeviceOracle`: a pure
function from each primitive call (upload / command / load / save) to its
outcome.  Each driver method is embedded as a Lean function from the driver
state, an oracle and the method's arguments to the new driver state, the list
of device calls it issued (in order) and the method's outcome
(`Except Err ...` models Python's raised exceptions).
-/

namespace NapalmF5

/-- Failure modes of the underlying bigrest client primitives: a
`RESTAPIError` carrying a message, or a local I/O failure (`EnvironmentError`
in Python) carrying errno and strerror. -/
inductive DevErr where
  | restAPIError (msg : String)
  | environmentError (errno : Int) (strerror : String)
deriving DecidableEq

/-- Exceptions the driver's methods can raise, mirroring the Python exception
classes used in f5.py and exceptions.py.  `replaceConfigException` and
`mergeConfigException` wrap the underlying cause, as the Python constructors
are handed the caught exception. -/
inductive Err where
  | notImplemented (msg : Option String)
  | connectionException (msg : String)
  | connectionError (msg : String)
  | environmentError (errno : Int) (strerror : String)
  | replaceConfigException (cause : Err)
  | mergeConfigException (cause : Err)
  | commitConfigException (msg : String)
  | discardConfigException (msg : String)
  | restAPIError (msg : String)
  | typeError (msg : String)
  | indexError
deriving DecidableEq

/-- Translation of an uncaught client-level error propagating out of a driver
method unchanged (Python: the exception object itself). -/
def DevErr.toErr : DevErr → Err
  | .restAPIError m => .restAPIError m
  | .environmentError n s => .environmentError n s

/-- Payload of a `device.command(path, data)` call: either the util/bash shape
`{"command": "run", "utilCmdArgs": ...}` or the sys/config shape
`{"command": "load", "options": [{"file": ..., "merge": ...}]}`. -/
inductive CommandData where
  | bash (utilCmdArgs : String)
  | loadConfig (file : String) (merge : Bool)
deriving DecidableEq

/-- A primitive call issued to the bigrest client, recorded in order. -/
inductive DeviceCall where
  | command (path : String) (data : CommandData)
  | upload (path : String) (localFile : String)
  | load (path : String)
  | save (resource : String)
deriving DecidableEq

/-- Observable behaviour of the remote device through the bigrest client:
what each primitive call returns.  `loadR` returns an opaque resource
identifier that `saveR` receives back. -/
structure DeviceOracle where
  uploadR : String → String → Except DevErr Unit
  commandR : String → CommandData → Except DevErr String
  loadR : String → Except DevErr String
  saveR : String → Except DevErr Unit

/-- The bigrest `BIGIP` session object as constructed by `F5Driver.open`. -/
structure BIGIP where
  device : String
  username : String
  password : String
  session_verify : Bool
  timeout : Nat
deriving DecidableEq

/-- Instance state of the `F5Driver` class: credentials plus the three
mutable fields set in `__init__` (f5.py lines 33-40). -/
structure F5Driver where
  hostname : String
  username : String
  password : String
  timeout : Nat
  config_replace : Bool
  filename : Option String
  device : Option BIGIP
deriving DecidableEq

/-- `F5Driver.__init__` (f5.py lines 21-43): stores the credentials and
initialises `config_replace = False`, `filename = None`, `device = None`. -/
def F5Driver.init (hostname username password : String) (timeout : Nat) : F5Driver :=
  { hostname := hostname, username := username, password := password, timeout := timeout,
    config_replace := false, filename := none, device := none }

/-- `open` (f5.py lines 45-56): constructs a `BIGIP` session from the stored
credentials; a client-side `RESTAPIError` is re-raised as
`ConnectionException("F5 API Error (...)")`.  Whether construction succeeds
is the environment's choice, passed in as `connectOK`/`errMsg`. -/
def F5Driver.openDevice (self : F5Driver) (connectOK : Bool) (errMsg : String) :
    Except Err F5Driver :=
  if connectOK then
    .ok { self with device := some { device := self.hostname, username := self.username,
                                     password := self.password, session_verify := false,
                                     timeout := self.timeout } }
  else
    .error (.connectionException ("F5 API Error (" ++ errMsg ++ ")"))

/-- `close` (f5.py lines 58-60): `self.device = None`. -/
def F5Driver.close (self : F5Driver) : F5Driver :=
  { self with device := none }

/-- `is_alive` (f5.py lines 177-181): truthiness of the local handle only. -/
def F5Driver.is_alive (self : F5Driver) : Bool :=
  match self.device with
  | some _ => true
  | none => false

/-- Python truthiness of an optional string argument (`if config:`):
`None` and `""` are falsy. -/
def truthy : Option String → Bool
  | none => false
  | some s => !(s == "")

/-- Python str() of an optional string as embedded in an f-string:
`None` prints as "None". -/
def pyStr : Option String → String
  | none => "None"
  | some s => s

deriving instance DecidableEq for Except

/-- `os.path.basename` for POSIX paths: the part after the last "/", computed
as a left fold that restarts the current segment at each "/". -/
def basename (path : String) : String :=
  String.mk (path.data.foldl (fun acc c => if c == '/' then [] else acc ++ [c]) [])

/-- Contiguous-sublist test on character lists (Python's `needle in hay`). -/
def charsIn (needle : List Char) : List Char → Bool
  | [] => needle.isEmpty
  | c :: rest => needle.isPrefixOf (c :: rest) || charsIn needle rest

/-- Python's substring containment `needle in hay`. -/
def strIn (needle hay : String) : Bool :=
  charsIn needle.data hay.data

/-- The `utilCmdArgs` payload the `cli` method builds for one command:
`f'-c "{command}"'`. -/
def bashData (command : String) : CommandData :=
  .bash ("-c \"" ++ command ++ "\"")

/-- `cli` (f5.py lines 62-77): runs each command through
`device.command("/mgmt/tm/util/bash", ...)`, collecting `command ↦ output`;
a client error mid-loop propagates unchanged. -/
def F5Driver.cli (dev : DeviceOracle) :
    List String → List DeviceCall × Except DevErr (List (String × String))
  | [] => ([], .ok [])
  | command :: rest =>
    let call := DeviceCall.command "/mgmt/tm/util/bash" (bashData command)
    match dev.commandR "/mgmt/tm/util/bash" (bashData command) with
    | .error e => ([call], .error e)
    | .ok out =>
      let tail := F5Driver.cli dev rest
      (call :: tail.1,
        match tail.2 with
        | .error e => .error e
        | .ok results => .ok ((command, out) :: results))

/-- `_upload_scf` (f5.py lines 553-561): uploads the local file `fp` to the
file-transfer endpoint, then relocates it server-side with
`mv /var/config/rest/downloads/{fp} /tmp/` — note the mv path embeds `fp`
verbatim, not its basename.  `RESTAPIError` becomes
`ConnectionError("F5 API Error: ...")`, `EnvironmentError` is re-raised with
its errno/strerror. -/
def F5Driver.uploadScf (dev : DeviceOracle) (fp : String) :
    List DeviceCall × Except Err Unit :=
  let upCall := DeviceCall.upload "/mgmt/shared/file-transfer/uploads" fp
  match dev.uploadR "/mgmt/shared/file-transfer/uploads" fp with
  | .error (.restAPIError m) => ([upCall], .error (.connectionError ("F5 API Error: " ++ m)))
  | .error (.environmentError no strerror) => ([upCall], .error (.environmentError no strerror))
  | .ok _ =>
    let tail := F5Driver.cli dev ["mv /var/config/rest/downloads/" ++ fp ++ " /tmp/"]
    (upCall :: tail.1,
      match tail.2 with
      | .error (.restAPIError m) => .error (.connectionError ("F5 API Error: " ++ m))
      | .error (.environmentError no strerror) => .error (.environmentError no strerror)
      | .ok _ => .ok ())

/-- `load_replace_candidate` (f5.py lines 79-96): sets `config_replace = True`
first; a truthy inline `config` raises `NotImplementedError`; a truthy
`filename` records its basename, uploads, and issues the sys/config load with
`merge: False`; any failure inside the try is wrapped in
`ReplaceConfigException`. -/
def F5Driver.load_replace_candidate (self : F5Driver) (dev : DeviceOracle)
    (filename : Option String) (config : Option String) :
    F5Driver × List DeviceCall × Except Err Unit :=
  let self := { self with config_replace := true }
  if truthy config then
    (self, [], .error (.notImplemented none))
  else if truthy filename then
    let fn := filename.getD ""
    let self := { self with filename := some (basename fn) }
    let up := F5Driver.uploadScf dev fn
    match up.2 with
    | .error e => (self, up.1, .error (.replaceConfigException e))
    | .ok _ =>
      let data := CommandData.loadConfig ("/tmp/" ++ basename fn) false
      let call := DeviceCall.command "/mgmt/tm/sys/config" data
      match dev.commandR "/mgmt/tm/sys/config" data with
      | .error e => (self, up.1 ++ [call], .error (.replaceConfigException e.toErr))
      | .ok _ => (self, up.1 ++ [call], .ok ())
  else
    (self, [], .ok ())

/-- `load_merge_candidate` (f5.py lines 136-153): same as
`load_replace_candidate` with `config_replace = False`, `merge: True` and
`MergeConfigException`. -/
def F5Driver.load_merge_candidate (self : F5Driver) (dev : DeviceOracle)
    (filename : Option String) (config : Option String) :
    F5Driver × List DeviceCall × Except Err Unit :=
  let self := { self with config_replace := false }
  if truthy config then
    (self, [], .error (.notImplemented none))
  else if truthy filename then
    let fn := filename.getD ""
    let self := { self with filename := some (basename fn) }
    let up := F5Driver.uploadScf dev fn
    match up.2 with
    | .error e => (self, up.1, .error (.mergeConfigException e))
    | .ok _ =>
      let data := CommandData.loadConfig ("/tmp/" ++ basename fn) true
      let call := DeviceCall.command "/mgmt/tm/sys/config" data
      match dev.commandR "/mgmt/tm/sys/config" data with
      | .error e => (self, up.1 ++ [call], .error (.mergeConfigException e.toErr))
      | .ok _ => (self, up.1 ++ [call], .ok ())
  else
    (self, [], .ok ())

/-- `commit_config` (f5.py lines 155-165): reads the sys/config resource and
saves it; a `RESTAPIError` on either call is wrapped in
`CommitConfigException`.  The method reads none of the instance fields set at
stage time (`config_replace`, `filename`) and does not mutate the state. -/
def F5Driver.commit_config (self : F5Driver) (dev : DeviceOracle) (message : String) :
    F5Driver × List DeviceCall × Except Err Unit :=
  let loadCall := DeviceCall.load "/mgmt/tm/sys/config"
  match dev.loadR "/mgmt/tm/sys/config" with
  | .error (.restAPIError m) => (self, [loadCall], .error (.commitConfigException m))
  | .error e => (self, [loadCall], .error e.toErr)
  | .ok config =>
    match dev.saveR config with
    | .error (.restAPIError m) =>
        (self, [loadCall, DeviceCall.save config], .error (.commitConfigException m))
    | .error e => (self, [loadCall, DeviceCall.save config], .error e.toErr)
    | .ok _ => (self, [loadCall, DeviceCall.save config], .ok ())

/-- `discard_config` (f5.py lines 167-175): issues
`rm /var/config/rest/downloads/{self.filename}` over util/bash; a
`RESTAPIError` is wrapped in `DiscardConfigException`. -/
def F5Driver.discard_config (self : F5Driver) (dev : DeviceOracle) :
    F5Driver × List DeviceCall × Except Err Unit :=
  let cmd := "rm /var/config/rest/downloads/" ++ pyStr self.filename
  let call := DeviceCall.command "/mgmt/tm/util/bash" (bashData cmd)
  match dev.commandR "/mgmt/tm/util/bash" (bashData cmd) with
  | .error (.restAPIError m) => (self, [call], .error (.discardConfigException m))
  | .error e => (self, [call], .error e.toErr)
  | .ok _ => (self, [call], .ok ())

/-- Result record of `get_config`. -/
structure ConfigResult where
  running : String
  candidate : String
  startup : String
deriving DecidableEq

/-- `get_config` (f5.py lines 98-134): rejects `sanitized`/`full` with a
generic message, `retrieve` outside {"all","recursive"} and `format` other
than "text" with messages naming the offending value; otherwise runs
`tmsh show running-config [recursive]` over util/bash and returns
`{running, candidate := "", startup := ""}`. -/
def F5Driver.get_config (dev : DeviceOracle) (retrieve : String)
    (full sanitized : Bool) (format : String) :
    List DeviceCall × Except Err ConfigResult :=
  if sanitized || full then
    ([], .error (.notImplemented (some "Specified feature for get_config() is not implemented.")))
  else if !(retrieve == "all" || retrieve == "recursive") then
    ([], .error (.notImplemented (some
      ("Retrieve type of " ++ retrieve ++ " is not valid. Only running-config can be provided."))))
  else if !(format == "text") then
    ([], .error (.notImplemented (some ("Format of type " ++ format ++ " is not valid."))))
  else
    let args := if retrieve == "recursive" then
        "-c \"tmsh show running-config recursive\""
      else
        "-c \"tmsh show running-config\""
    let call := DeviceCall.command "/mgmt/tm/util/bash" (.bash args)
    match dev.commandR "/mgmt/tm/util/bash" (.bash args) with
    | .error e => ([call], .error e.toErr)
    | .ok config => ([call], .ok { running := config, candidate := "", startup := "" })

/-- One element of a user's `partitionAccess` list. -/
structure PartitionAccess where
  role : String
deriving DecidableEq

/-- Properties of one user object returned by `/mgmt/tm/auth/user/`. -/
structure UserProps where
  name : String
  partitionAccess : List PartitionAccess
  encryptedPassword : String
deriving DecidableEq

/-- One value of the mapping `get_users` returns. -/
structure UserEntry where
  level : Nat
  password : String
  sshkeys : List String
deriving DecidableEq

/-- `get_users` (f5.py lines 295-307): iterates the queried users but
REASSIGNS `users_dict` to a fresh single-entry dict on every iteration, so
only the last user survives.  Indexing `partitionAccess[0]` on a user with an
empty list raises `IndexError`. -/
def F5Driver.get_users (api_users : List UserProps) :
    Except Err (List (String × UserEntry)) :=
  api_users.foldl
    (fun users_dict user =>
      match users_dict with
      | .error e => .error e
      | .ok _ =>
        match user.partitionAccess.head? with
        | none => .error .indexError
        | some pa =>
          .ok [(user.name,
                { level := if pa.role == "admin" then 15 else 0,
                  password := user.encryptedPassword,
                  sshkeys := [] })])
    (.ok [])

/-- Property mapping of `/mgmt/tm/sys/ntp/`: `result.get("servers")` is
`None` exactly when no NTP servers are configured. -/
structure NtpProps where
  servers : Option (List String)
deriving DecidableEq

/-- `get_ntp_servers` (f5.py lines 309-317): `result.get("servers")` followed
by a dict comprehension over it; iterating `None` raises `TypeError`. -/
def F5Driver.get_ntp_servers (result : NtpProps) :
    Except Err (List (String × Unit)) :=
  match result.servers with
  | none => .error (.typeError "NoneType object is not iterable")
  | some ntp_servers => .ok (ntp_servers.map (fun server => (server, ())))

/-- Properties of one interface object returned by `/mgmt/tm/net/interface/`. -/
structure IntfProps where
  name : String
  enabled : Bool
  macAddress : String
  mediaActive : String
  description : Option String
deriving DecidableEq

/-- One value of the mapping `get_interfaces` returns (`last_flapped` is the
float -1.0 in source, modelled by the exactly-representable integer -1). -/
structure IntfEntry where
  is_up : Bool
  is_enabled : Bool
  description : String
  last_flapped : Int
  speed : Int
  mac_address : String
deriving DecidableEq

/-- `_get_interfaces_list` (f5.py lines 204-206). -/
def F5Driver.getInterfacesList (query : List IntfProps) : List String :=
  query.map (fun intf => intf.name)

/-- `_get_interfaces_enabled_state` (f5.py lines 208-210). -/
def F5Driver.getInterfacesEnabledState (query : List IntfProps) : List Bool :=
  query.map (fun intf => intf.enabled)

/-- `_get_interfaces_mac_address` (f5.py lines 212-214). -/
def F5Driver.getInterfacesMacAddress (query : List IntfProps) : List String :=
  query.map (fun intf => intf.macAddress)

/-- `_get_interfaces_active_media` (f5.py lines 216-218). -/
def F5Driver.getInterfacesActiveMedia (query : List IntfProps) : List String :=
  query.map (fun intf => intf.mediaActive)

/-- `_get_interfaces_media_status` (f5.py lines 220-222):
`not (mediaActive == "none")`. -/
def F5Driver.getInterfacesMediaStatus (query : List IntfProps) : List Bool :=
  query.map (fun intf => !(intf.mediaActive == "none"))

/-- `_get_interfaces_description` (f5.py lines 224-226): the description if
truthy, else `""`. -/
def F5Driver.getInterfacesDescription (query : List IntfProps) : List String :=
  query.map (fun intf => if truthy intf.description then intf.description.getD "" else "")

/-- `if_speed` (f5.py lines 496-508): substring scan of the active-media
string against the speed tokens, in descending order, first match wins,
-1 when none match. -/
def if_speed (active_media : String) : Int :=
  if strIn "100000" active_media then 100000
  else if strIn "40000" active_media then 40000
  else if strIn "10000" active_media then 10000
  else if strIn "1000" active_media then 1000
  else if strIn "100" active_media then 100
  else -1

/-- Pointwise zip of six lists, as Python's `zip(...)` over the six
per-interface column lists. -/
def zip6 {α β γ δ ε ζ : Type} :
    List α → List β → List γ → List δ → List ε → List ζ →
    List (α × β × γ × δ × ε × ζ)
  | a :: as, b :: bs, c :: cs, d :: ds, e :: es, f :: fs =>
      (a, b, c, d, e, f) :: zip6 as bs cs ds es fs
  | _, _, _, _, _, _ => []

/-- `get_interfaces` (f5.py lines 493-535): builds the six column lists from
one interface query, zips them sorted by name order, and shapes each tuple
into an interface entry whose speed is `if_speed` of the active media. -/
def F5Driver.get_interfaces (intf_query : List IntfProps) :
    List (String × IntfEntry) :=
  (zip6 (F5Driver.getInterfacesList intf_query)
        (F5Driver.getInterfacesMediaStatus intf_query)
        (F5Driver.getInterfacesEnabledState intf_query)
        (F5Driver.getInterfacesDescription intf_query)
        (F5Driver.getInterfacesMacAddress intf_query)
        (F5Driver.getInterfacesActiveMedia intf_query)).map
    (fun t =>
      (t.1,
       { is_up := t.2.1, is_enabled := t.2.2.1, description := t.2.2.2.1,
         last_flapped := -1, speed := if_speed t.2.2.2.2.2,
         mac_address := t.2.2.2.2.1 }))

/-- Input record of `convert_to_64_bit`: the two signed 32-bit halves of a
legacy statistics counter. -/
structure StatValue where
  high : Int
  low : Int
deriving DecidableEq

/-- `convert_to_64_bit` (f5.py lines 537-551): adds `1 << 32` to each half
when negative, combines as `(high << 32) | low`, and asserts the result is
non-negative (`none` models a failed assert). -/
def F5Driver.convert_to_64_bit (value : StatValue) : Option Int :=
  let high := if value.high < 0 then value.high + ((1 : Int) <<< (32 : Int)) else value.high
  let low := if value.low < 0 then value.low + ((1 : Int) <<< (32 : Int)) else value.low
  let v := Int.lor (high <<< (32 : Int)) low
  if 0 ≤ v then some v else none

/-! Concrete fixtures used by witness and counterexample theorems. -/

/-- Oracle on which every primitive succeeds. -/
def devOK : DeviceOracle :=
  { uploadR := fun _ _ => .ok ()
    commandR := fun _ _ => .ok "out"
    loadR := fun _ => .ok "sys-config-resource"
    saveR := fun _ => .ok () }

/-- Oracle whose upload primitive fails with a `RESTAPIError`. -/
def devUploadFail : DeviceOracle :=
  { devOK with uploadR := fun _ _ => .error (.restAPIError "upload refused") }

/-- Oracle on which only the sys/config load command fails. -/
def devLoadCmdFail : DeviceOracle :=
  { devOK with commandR := fun path _ =>
      if path == "/mgmt/tm/sys/config" then
        Except.error (DevErr.restAPIError "load failed")
      else
        Except.ok "out" }

/-- A freshly initialised driver. -/
def s0 : F5Driver := F5Driver.init "host" "user" "pass" 60

/-- A driver with a staged artifact and a chosen mode flag. -/
def sStaged (b : Bool) : F5Driver :=
  { s0 with config_replace := b, filename := some "cand.scf" }

/-- Discriminator for `DeviceCall.command`, used to state that a trace
contains no remote command invocation. -/
def isCommandCall : DeviceCall → Bool
  | .command _ _ => true
  | _ => false

/-! ## Theorems -/

/-- C7 (code bug): `get_users` reassigns its dictionary on every loop
iteration, so with two queried users only the last one appears in the result
(the claim expects one entry per queried user); the per-entry shape (level 15
for the admin role, 0 otherwise, encrypted password, empty key list) is as
claimed for the surviving entry. -/
theorem C7_get_users_keeps_only_last_user :
    F5Driver.get_users
        [{ name := "alice", partitionAccess := [{ role := "admin" }],
           encryptedPassword := "hashA" },
         { name := "bob", partitionAccess := [{ role := "guest" }],
           encryptedPassword := "hashB" }] =
      .ok [("bob", { level := 0, password := "hashB", sshkeys := [] })] ∧
    F5Driver.get_users
        [{ name := "alice", partitionAccess := [{ role := "admin" }],
           encryptedPassword := "hashA" }] =
      .ok [("alice", { level := 15, password := "hashA", sshkeys := [] })] := by
  exact ⟨rfl, rfl⟩

/-- C9: `get_ntp_servers` iterates `result.get("servers")` directly, so a
property mapping without a "servers" key raises a TypeError rather than
returning an empty mapping, and a present servers list yields one entry per
server. -/
theorem C9_get_ntp_servers_requires_servers_key (props : NtpProps)
    (servers : List String) :
    (props.servers = none →
      F5Driver.get_ntp_servers props =
        .error (.typeError "NoneType object is not iterable")) ∧
    (props.servers = some servers →
      F5Driver.get_ntp_servers props = .ok (servers.map (fun server => (server, ())))) := by
  constructor
  · intro h
    simp [F5Driver.get_ntp_servers, h]
  · intro h
    simp [F5Driver.get_ntp_servers, h]

/-- C10: `close` only clears the session handle; the staged-artifact
bookkeeping (`filename`, `config_replace`) and the credentials survive a
close, and also survive a subsequent successful reopen. -/
theorem C10_close_changes_only_session_handle (self : F5Driver) (errMsg : String) :
    (F5Driver.close self).device = none ∧
    (F5Driver.close self).filename = self.filename ∧
    (F5Driver.close self).config_replace = self.config_replace ∧
    (F5Driver.close self).hostname = self.hostname ∧
    (F5Driver.close self).username = self.username ∧
    (F5Driver.close self).password = self.password ∧
    (F5Driver.close self).timeout = self.timeout ∧
    (∃ conn, F5Driver.openDevice (F5Driver.close self) true errMsg =
      .ok { self with device := some conn }) := by
  exact ⟨rfl, rfl, rfl, rfl, rfl, rfl, rfl, ⟨_, rfl⟩⟩

/-- C8: both staging methods assign the mode flag before validating their
arguments, so a call rejected with NotImplementedError because an inline
config payload was passed has already mutated `config_replace` (the failed
call is not atomic with respect to driver state); `filename` is untouched. -/
theorem C8_mode_flag_mutated_before_validation (dev : DeviceOracle)
    (self : F5Driver) (c : String) (hc : c ≠ "") :
    (F5Driver.load_replace_candidate { self with config_replace := false }
        dev none (some c)).2.2 = .error (.notImplemented none) ∧
    (F5Driver.load_replace_candidate { self with config_replace := false }
        dev none (some c)).1.config_replace = true ∧
    (F5Driver.load_replace_candidate { self with config_replace := false }
        dev none (some c)).1.filename = self.filename ∧
    (F5Driver.load_merge_candidate { self with config_replace := true }
        dev none (some c)).2.2 = .error (.notImplemented none) ∧
    (F5Driver.load_merge_candidate { self with config_replace := true }
        dev none (some c)).1.config_replace = false ∧
    (F5Driver.load_merge_candidate { self with config_replace := true }
        dev none (some c)).1.filename = self.filename := by
  simp [F5Driver.load_replace_candidate, F5Driver.load_merge_candidate, truthy, hc]

/-- C8 witness: the theorem applied to a concrete driver, oracle and inline
payload. -/
theorem C8_witness :
    (F5Driver.load_replace_candidate { s0 with config_replace := false }
        devOK none (some "payload")).2.2 = .error (.notImplemented none) ∧
    (F5Driver.load_replace_candidate { s0 with config_replace := false }
        devOK none (some "payload")).1.config_replace = true ∧
    (F5Driver.load_replace_candidate { s0 with config_replace := false }
        devOK none (some "payload")).1.filename = s0.filename ∧
    (F5Driver.load_merge_candidate { s0 with config_replace := true }
        devOK none (some "payload")).2.2 = .error (.notImplemented none) ∧
    (F5Driver.load_merge_candidate { s0 with config_replace := true }
        devOK none (some "payload")).1.config_replace = false ∧
    (F5Driver.load_merge_candidate { s0 with config_replace := true }
        devOK none (some "payload")).1.filename = s0.filename :=
  C8_mode_flag_mutated_before_validation devOK s0 "payload" (by decide)

/-- C1 counterexample: on a staged driver, `commit_config` issues exactly a
sys/config resource read followed by a save — no command call at all, in
particular no load of the staged artifact with a merge flag — and its device
calls and outcome are identical whether `config_replace` was recorded true or
false, so the recorded mode is not read and does not determine replace-vs-merge. -/
theorem C1_counterexample :
    (F5Driver.commit_config (sStaged true) devOK "").2 =
      (F5Driver.commit_config (sStaged false) devOK "").2 ∧
    (F5Driver.commit_config (sStaged true) devOK "").2.1 =
      [DeviceCall.load "/mgmt/tm/sys/config", DeviceCall.save "sys-config-resource"] ∧
    ((F5Driver.commit_config (sStaged true) devOK "").2.1.all
      (fun c => !isCommandCall c)) = true := by
  exact ⟨rfl, rfl, rfl⟩

/-- C3 counterexample: staging the path "conf/cand.scf" remembers the
basename and loads "/tmp/cand.scf", but the server-side relocation command
embeds the caller-supplied path verbatim, so the device-side staging path
keeps its directory component instead of the basename. -/
theorem C3_counterexample :
    (s0.load_replace_candidate devOK (some "conf/cand.scf") none).2.1 =
      [DeviceCall.upload "/mgmt/shared/file-transfer/uploads" "conf/cand.scf",
       DeviceCall.command "/mgmt/tm/util/bash"
         (bashData "mv /var/config/rest/downloads/conf/cand.scf /tmp/"),
       DeviceCall.command "/mgmt/tm/sys/config"
         (CommandData.loadConfig "/tmp/cand.scf" false)] ∧
    basename "conf/cand.scf" = "cand.scf" ∧
    strIn "conf/" "-c \"mv /var/config/rest/downloads/conf/cand.scf /tmp/\"" = true ∧
    ¬ (bashData "mv /var/config/rest/downloads/conf/cand.scf /tmp/" =
       bashData "mv /var/config/rest/downloads/cand.scf /tmp/") := by
  exact ⟨by decide, by decide, by decide, by decide⟩

/-- C5 counterexample: the active-media string "100000LR" contains both
"10000" and "1000" as substrings, yet the interface speed computed by
`get_interfaces` is 100000, not 10000 — the claim's "a string containing both
10000 and 1000 resolves to 10000" fails whenever a higher token also matches. -/
theorem C5_counterexample :
    (F5Driver.get_interfaces
        [{ name := "1.1", enabled := true, macAddress := "00:11",
           mediaActive := "100000LR", description := none }]).map
      (fun p => (p.1, p.2.speed)) = [("1.1", 100000)] ∧
    strIn "10000" "100000LR" = true ∧
    strIn "1000" "100000LR" = true ∧
    ¬ ((100000 : Int) = 10000) := by
  exact ⟨by decide, by decide, by decide, by decide⟩

/-- C6 counterexample: `get_config` with `full = true` raises
NotImplementedError without issuing a remote command, but its message is the
generic "Specified feature for get_config() is not implemented." which names
neither the parameter `full` nor its value. -/
theorem C6_counterexample :
    (F5Driver.get_config devOK "all" true false "text").1 = [] ∧
    (F5Driver.get_config devOK "all" true false "text").2 =
      .error (.notImplemented
        (some "Specified feature for get_config() is not implemented.")) ∧
    strIn "full" "Specified feature for get_config() is not implemented." = false ∧
    strIn "True" "Specified feature for get_config() is not implemented." = false ∧
    strIn "true" "Specified feature for get_config() is not implemented." = false := by
  exact ⟨by decide, by decide, by decide, by decide, by decide⟩

/-- Helper: a list is a Boolean prefix of itself followed by anything. -/
theorem isPrefixOf_append_self (l t : List Char) : l.isPrefixOf (l ++ t) = true := by
  induction l with
  | nil => simp [List.isPrefixOf]
  | cons c rest ih => simp [List.isPrefixOf, ih]

/-- Helper: `charsIn` finds a needle that occurs between any two contexts. -/
theorem charsIn_append (n pre rest : List Char) :
    charsIn n (pre ++ (n ++ rest)) = true := by
  induction pre with
  | nil =>
    cases n with
    | nil => cases rest <;> simp [charsIn, List.isPrefixOf]
    | cons c cs => simp [charsIn, isPrefixOf_append_self]
  | cons p ps ih => simp [charsIn, ih]

/-- Helper: `strIn` finds a substring that occurs between any two contexts. -/
theorem strIn_append (s a b : String) : strIn s (a ++ (s ++ b)) = true := by
  have h : (a ++ (s ++ b)).data = a.data ++ (s.data ++ b.data) := by
    simp
  simp [strIn, h, charsIn_append]

/-- Helper: the speed column `get_interfaces` computes is pointwise
`if_speed` of the active-media column. -/
theorem get_interfaces_speed_col (q : List IntfProps) :
    (F5Driver.get_interfaces q).map (fun p => p.2.speed) =
      q.map (fun i => if_speed i.mediaActive) := by
  induction q with
  | nil => rfl
  | cons i rest ih =>
    simpa [F5Driver.get_interfaces, F5Driver.getInterfacesList,
      F5Driver.getInterfacesMediaStatus, F5Driver.getInterfacesEnabledState,
      F5Driver.getInterfacesDescription, F5Driver.getInterfacesMacAddress,
      F5Driver.getInterfacesActiveMedia, zip6] using ih

/-- C5 (amended): the interface speed `get_interfaces` computes is `if_speed`
of the active-media string, which is the first match of the descending token
scan 100000, 40000, 10000, 1000, 100 (substring containment) and -1 when no
token matches; in particular a string containing "10000" (hence also "1000")
but neither "100000" nor "40000" resolves to 10000, and never to 1000. -/
theorem C5_speed_first_match_descending (q : List IntfProps) (am : String) :
    ((F5Driver.get_interfaces q).map (fun p => p.2.speed) =
      q.map (fun i => if_speed i.mediaActive)) ∧
    (strIn "100000" am = true → if_speed am = 100000) ∧
    (strIn "100000" am = false → strIn "40000" am = true → if_speed am = 40000) ∧
    (strIn "100000" am = false → strIn "40000" am = false →
      strIn "10000" am = true → if_speed am = 10000) ∧
    (strIn "100000" am = false → strIn "40000" am = false →
      strIn "10000" am = false → strIn "1000" am = true → if_speed am = 1000) ∧
    (strIn "100000" am = false → strIn "40000" am = false →
      strIn "10000" am = false → strIn "1000" am = false →
      strIn "100" am = true → if_speed am = 100) ∧
    (strIn "100000" am = false → strIn "40000" am = false →
      strIn "10000" am = false → strIn "1000" am = false →
      strIn "100" am = false → if_speed am = -1) ∧
    (strIn "10000" am = true → ¬ if_speed am = 1000) := by
  refine ⟨get_interfaces_speed_col q, ?_, ?_, ?_, ?_, ?_, ?_, ?_⟩
  · intro h1
    simp [if_speed, h1]
  · intro h1 h2
    simp [if_speed, h1, h2]
  · intro h1 h2 h3
    simp [if_speed, h1, h2, h3]
  · intro h1 h2 h3 h4
    simp [if_speed, h1, h2, h3, h4]
  · intro h1 h2 h3 h4 h5
    simp [if_speed, h1, h2, h3, h4, h5]
  · intro h1 h2 h3 h4 h5
    simp [if_speed, h1, h2, h3, h4, h5]
  · intro h3
    by_cases h1 : strIn "100000" am = true
    · simp [if_speed, h1]
    · simp only [Bool.not_eq_true] at h1
      by_cases h2 : strIn "40000" am = true
      · simp [if_speed, h1, h2]
      · simp only [Bool.not_eq_true] at h2
        simp [if_speed, h1, h2, h3]

/-- C6 (amended): `get_config` accepts only `retrieve` in {"all","recursive"},
`full = false`, `sanitized = false`, `format = "text"`; any other value fails
with NotImplementedError and no remote command is issued; the retrieve and
format error messages name the offending value, while the full/sanitized
rejection carries the generic message "Specified feature for get_config() is
not implemented." that names neither the parameter nor its value; valid
parameters issue exactly one tmsh show running-config command. -/
theorem C6_get_config_rejects_unsupported (dev : DeviceOracle)
    (retrieve format : String) (full sanitized : Bool) :
    ((sanitized || full) = true →
      F5Driver.get_config dev retrieve full sanitized format =
        ([], .error (.notImplemented
          (some "Specified feature for get_config() is not implemented.")))) ∧
    (sanitized = false → full = false →
      (retrieve == "all" || retrieve == "recursive") = false →
      F5Driver.get_config dev retrieve full sanitized format =
        ([], .error (.notImplemented (some
          ("Retrieve type of " ++ retrieve ++
           " is not valid. Only running-config can be provided."))))) ∧
    (sanitized = false → full = false →
      (retrieve == "all" || retrieve == "recursive") = true →
      (format == "text") = false →
      F5Driver.get_config dev retrieve full sanitized format =
        ([], .error (.notImplemented (some
          ("Format of type " ++ format ++ " is not valid."))))) ∧
    strIn retrieve ("Retrieve type of " ++ retrieve ++
      " is not valid. Only running-config can be provided.") = true ∧
    strIn format ("Format of type " ++ format ++ " is not valid.") = true ∧
    (F5Driver.get_config dev "all" false false "text").1 =
      [DeviceCall.command "/mgmt/tm/util/bash"
        (.bash "-c \"tmsh show running-config\"")] ∧
    (F5Driver.get_config dev "recursive" false false "text").1 =
      [DeviceCall.command "/mgmt/tm/util/bash"
        (.bash "-c \"tmsh show running-config recursive\"")] := by
  refine ⟨?_, ?_, ?_, ?_, ?_, ?_, ?_⟩
  · intro h
    simp [F5Driver.get_config, h]
  · intro hs hf hr
    simp [F5Driver.get_config, hs, hf, hr]
  · intro hs hf hr hfmt
    simp [F5Driver.get_config, hs, hf, hr, hfmt]
  · have h := strIn_append retrieve "Retrieve type of "
      " is not valid. Only running-config can be provided."
    simpa [String.append_assoc] using h
  · have h := strIn_append format "Format of type " " is not valid."
    simpa [String.append_assoc] using h
  · cases h : dev.commandR "/mgmt/tm/util/bash"
        (.bash "-c \"tmsh show running-config\"") <;>
      simp [F5Driver.get_config, h]
  · cases h : dev.commandR "/mgmt/tm/util/bash"
        (.bash "-c \"tmsh show running-config recursive\"") <;>
      simp [F5Driver.get_config, h]

/-- Helper: the literal `1 << 32` of the source equals `2 ^ 32`. -/
theorem one_shiftLeft_32 : ((1 : Int) <<< (32 : Int)) = 2 ^ 32 := by decide

/-- Helper: shifting a natural-number-valued integer left by 32 stays in the
natural numbers. -/
theorem shiftLeft32_natCast (n : ℕ) :
    ((n : ℤ) <<< (32 : ℤ)) = ((Nat.shiftLeft' false n 32 : ℕ) : ℤ) := rfl

/-- Helper: `Int.lor` of two natural-number-valued integers is the natural
`Nat.lor`. -/
theorem lor_natCast (a b : ℕ) :
    Int.lor (a : ℤ) (b : ℤ) = ((a ||| b : ℕ) : ℤ) := rfl

/-- Helper: `(a << 32) | b` is non-negative when both operands are. -/
theorem lor_shiftLeft_nonneg (a b : ℤ) (ha : 0 ≤ a) (hb : 0 ≤ b) :
    0 ≤ Int.lor (a <<< (32 : ℤ)) b := by
  obtain ⟨m, rfl⟩ := Int.eq_ofNat_of_zero_le ha
  obtain ⟨n, rfl⟩ := Int.eq_ofNat_of_zero_le hb
  rw [shiftLeft32_natCast, lor_natCast]
  exact Int.natCast_nonneg _

/-- Helper: whenever `convert_to_64_bit` returns a value (the assert did not
fire), that value is non-negative. -/
theorem convert_to_64_bit_some_nonneg (w : StatValue) (r : Int)
    (h : F5Driver.convert_to_64_bit w = some r) : 0 ≤ r := by
  unfold F5Driver.convert_to_64_bit at h
  split at h <;> split at h <;> simp_all <;> omega

/-- C4: for signed 32-bit halves, `convert_to_64_bit` returns
`((high + 2^32 if high < 0 else high) << 32) | (low + 2^32 if low < 0 else low)`
(the assert passes); the result of a successful conversion is never negative;
high = -1, low = -1 yields 2^64 - 1 and high = 0, low = 0 yields 0. -/
theorem C4_convert_to_64_bit_reconstruction (v : StatValue)
    (h1 : -(2 ^ 31) ≤ v.high) (h2 : v.high < 2 ^ 31)
    (h3 : -(2 ^ 31) ≤ v.low) (h4 : v.low < 2 ^ 31) :
    F5Driver.convert_to_64_bit v =
      some (Int.lor ((if v.high < 0 then v.high + 2 ^ 32 else v.high) <<< (32 : Int))
                    (if v.low < 0 then v.low + 2 ^ 32 else v.low)) ∧
    (∀ w : StatValue, ∀ r : Int, F5Driver.convert_to_64_bit w = some r → 0 ≤ r) ∧
    F5Driver.convert_to_64_bit ⟨-1, -1⟩ = some (2 ^ 64 - 1) ∧
    F5Driver.convert_to_64_bit ⟨0, 0⟩ = some 0 := by
  have p31 : (2 : ℤ) ^ 31 = 2147483648 := by norm_num
  have p32 : (2 : ℤ) ^ 32 = 4294967296 := by norm_num
  rw [p31] at h1 h2 h3 h4
  have hh : 0 ≤ (if v.high < 0 then v.high + 2 ^ 32 else v.high) := by
    by_cases h : v.high < 0 <;> simp [h, p32] <;> omega
  have hl : 0 ≤ (if v.low < 0 then v.low + 2 ^ 32 else v.low) := by
    by_cases h : v.low < 0 <;> simp [h, p32] <;> omega
  refine ⟨?_, fun w r h => convert_to_64_bit_some_nonneg w r h, by decide, by decide⟩
  unfold F5Driver.convert_to_64_bit
  rw [one_shiftLeft_32]
  rw [if_pos (lor_shiftLeft_nonneg _ _ hh hl)]

/-- C4 witness: the theorem applied to the concrete record high = -1,
low = 123. -/
theorem C4_witness :
    F5Driver.convert_to_64_bit ⟨-1, 123⟩ =
      some (Int.lor ((if (-1 : Int) < 0 then (-1 : Int) + 2 ^ 32 else -1) <<< (32 : Int))
                    (if (123 : Int) < 0 then (123 : Int) + 2 ^ 32 else 123)) ∧
    (∀ w : StatValue, ∀ r : Int, F5Driver.convert_to_64_bit w = some r → 0 ≤ r) ∧
    F5Driver.convert_to_64_bit ⟨-1, -1⟩ = some (2 ^ 64 - 1) ∧
    F5Driver.convert_to_64_bit ⟨0, 0⟩ = some 0 :=
  C4_convert_to_64_bit_reconstruction ⟨-1, 123⟩
    (by norm_num) (by norm_num) (by norm_num) (by norm_num)

/-- Helper: when the upload and the server-side relocation succeed,
`_upload_scf` issues exactly those two calls and returns successfully. -/
theorem uploadScf_ok (dev : DeviceOracle) (fn out : String)
    (hup : dev.uploadR "/mgmt/shared/file-transfer/uploads" fn = .ok ())
    (hmv : dev.commandR "/mgmt/tm/util/bash"
      (bashData ("mv /var/config/rest/downloads/" ++ fn ++ " /tmp/")) = .ok out) :
    F5Driver.uploadScf dev fn =
      ([DeviceCall.upload "/mgmt/shared/file-transfer/uploads" fn,
        DeviceCall.command "/mgmt/tm/util/bash"
          (bashData ("mv /var/config/rest/downloads/" ++ fn ++ " /tmp/"))], .ok ()) := by
  simp [F5Driver.uploadScf, F5Driver.cli, hup, hmv]

/-- C1 (amended): the replace-vs-merge behaviour is selected at stage time —
`load_replace_candidate` itself issues the device sys/config load with
`merge: False` and `load_merge_candidate` with `merge: True` — while
`commit_config` does not read the recorded mode: it leaves the driver state
unchanged, issues the same calls and returns the same outcome for any value
of `config_replace`, and its trace contains no command call at all. -/
theorem C1_mode_selected_at_stage_not_commit (dev : DeviceOracle) (self : F5Driver)
    (fn msg out : String) (b : Bool)
    (hfn : fn ≠ "")
    (hup : dev.uploadR "/mgmt/shared/file-transfer/uploads" fn = .ok ())
    (hmv : dev.commandR "/mgmt/tm/util/bash"
      (bashData ("mv /var/config/rest/downloads/" ++ fn ++ " /tmp/")) = .ok out) :
    (F5Driver.load_replace_candidate self dev (some fn) none).2.1 =
      [DeviceCall.upload "/mgmt/shared/file-transfer/uploads" fn,
       DeviceCall.command "/mgmt/tm/util/bash"
         (bashData ("mv /var/config/rest/downloads/" ++ fn ++ " /tmp/")),
       DeviceCall.command "/mgmt/tm/sys/config"
         (CommandData.loadConfig ("/tmp/" ++ basename fn) false)] ∧
    (F5Driver.load_merge_candidate self dev (some fn) none).2.1 =
      [DeviceCall.upload "/mgmt/shared/file-transfer/uploads" fn,
       DeviceCall.command "/mgmt/tm/util/bash"
         (bashData ("mv /var/config/rest/downloads/" ++ fn ++ " /tmp/")),
       DeviceCall.command "/mgmt/tm/sys/config"
         (CommandData.loadConfig ("/tmp/" ++ basename fn) true)] ∧
    F5Driver.commit_config { self with config_replace := b } dev msg =
      ({ self with config_replace := b }, (F5Driver.commit_config self dev msg).2) ∧
    ((F5Driver.commit_config self dev msg).2.1.all (fun c => !isCommandCall c)) = true := by
  refine ⟨?_, ?_, ?_, ?_⟩
  · cases hc2 : dev.commandR "/mgmt/tm/sys/config"
        (CommandData.loadConfig ("/tmp/" ++ basename fn) false) <;>
      simp [F5Driver.load_replace_candidate, truthy, hfn,
        uploadScf_ok dev fn out hup hmv, hc2]
  · cases hc2 : dev.commandR "/mgmt/tm/sys/config"
        (CommandData.loadConfig ("/tmp/" ++ basename fn) true) <;>
      simp [F5Driver.load_merge_candidate, truthy, hfn,
        uploadScf_ok dev fn out hup hmv, hc2]
  · cases h1 : dev.loadR "/mgmt/tm/sys/config" with
    | error e => cases e <;> simp [F5Driver.commit_config, h1]
    | ok cfg =>
      cases h2 : dev.saveR cfg with
      | error e2 => cases e2 <;> simp [F5Driver.commit_config, h1, h2]
      | ok u => simp [F5Driver.commit_config, h1, h2]
  · cases h1 : dev.loadR "/mgmt/tm/sys/config" with
    | error e => cases e <;> simp [F5Driver.commit_config, isCommandCall, h1]
    | ok cfg =>
      cases h2 : dev.saveR cfg with
      | error e2 => cases e2 <;> simp [F5Driver.commit_config, isCommandCall, h1, h2]
      | ok u => simp [F5Driver.commit_config, isCommandCall, h1, h2]

/-- C1 witness: the theorem applied to the all-succeeding oracle, a fresh
driver and the filename "cand.scf". -/
theorem C1_witness :
    (F5Driver.load_replace_candidate s0 devOK (some "cand.scf") none).2.1 =
      [DeviceCall.upload "/mgmt/shared/file-transfer/uploads" "cand.scf",
       DeviceCall.command "/mgmt/tm/util/bash"
         (bashData ("mv /var/config/rest/downloads/" ++ "cand.scf" ++ " /tmp/")),
       DeviceCall.command "/mgmt/tm/sys/config"
         (CommandData.loadConfig ("/tmp/" ++ basename "cand.scf") false)] ∧
    (F5Driver.load_merge_candidate s0 devOK (some "cand.scf") none).2.1 =
      [DeviceCall.upload "/mgmt/shared/file-transfer/uploads" "cand.scf",
       DeviceCall.command "/mgmt/tm/util/bash"
         (bashData ("mv /var/config/rest/downloads/" ++ "cand.scf" ++ " /tmp/")),
       DeviceCall.command "/mgmt/tm/sys/config"
         (CommandData.loadConfig ("/tmp/" ++ basename "cand.scf") true)] ∧
    F5Driver.commit_config { s0 with config_replace := true } devOK "m" =
      ({ s0 with config_replace := true }, (F5Driver.commit_config s0 devOK "m").2) ∧
    ((F5Driver.commit_config s0 devOK "m").2.1.all (fun c => !isCommandCall c)) = true :=
  C1_mode_selected_at_stage_not_commit devOK s0 "cand.scf" "m" "out" true
    (by decide) rfl rfl

/-- C2: a truthy inline config payload fails both staging methods with
NotImplementedError; when the upload fails (oracle `dev`) or the device-side
load command fails (oracle `dev2`), the call fails with
ReplaceConfigException (replace mode) or MergeConfigException (merge mode)
wrapping the underlying cause, and the recorded filename (the basename) and
mode flag remain set after the failure. -/
theorem C2_staging_failure_behaviour (dev dev2 : DeviceOracle) (self : F5Driver)
    (c fn : String) (e : Err) (e2 : DevErr)
    (hc : c ≠ "") (hfn : fn ≠ "")
    (hup : (F5Driver.uploadScf dev fn).2 = .error e)
    (hup2 : (F5Driver.uploadScf dev2 fn).2 = .ok ())
    (hcmdr : dev2.commandR "/mgmt/tm/sys/config"
      (CommandData.loadConfig ("/tmp/" ++ basename fn) false) = .error e2)
    (hcmdm : dev2.commandR "/mgmt/tm/sys/config"
      (CommandData.loadConfig ("/tmp/" ++ basename fn) true) = .error e2) :
    (F5Driver.load_replace_candidate self dev none (some c)).2.2 =
      .error (.notImplemented none) ∧
    (F5Driver.load_merge_candidate self dev none (some c)).2.2 =
      .error (.notImplemented none) ∧
    (F5Driver.load_replace_candidate self dev (some fn) none).2.2 =
      .error (.replaceConfigException e) ∧
    (F5Driver.load_replace_candidate self dev (some fn) none).1.filename =
      some (basename fn) ∧
    (F5Driver.load_replace_candidate self dev (some fn) none).1.config_replace = true ∧
    (F5Driver.load_merge_candidate self dev (some fn) none).2.2 =
      .error (.mergeConfigException e) ∧
    (F5Driver.load_merge_candidate self dev (some fn) none).1.filename =
      some (basename fn) ∧
    (F5Driver.load_merge_candidate self dev (some fn) none).1.config_replace = false ∧
    (F5Driver.load_replace_candidate self dev2 (some fn) none).2.2 =
      .error (.replaceConfigException e2.toErr) ∧
    (F5Driver.load_replace_candidate self dev2 (some fn) none).1.filename =
      some (basename fn) ∧
    (F5Driver.load_replace_candidate self dev2 (some fn) none).1.config_replace = true ∧
    (F5Driver.load_merge_candidate self dev2 (some fn) none).2.2 =
      .error (.mergeConfigException e2.toErr) ∧
    (F5Driver.load_merge_candidate self dev2 (some fn) none).1.filename =
      some (basename fn) ∧
    (F5Driver.load_merge_candidate self dev2 (some fn) none).1.config_replace = false := by
  refine ⟨?_, ?_, ?_, ?_, ?_, ?_, ?_, ?_, ?_, ?_, ?_, ?_, ?_, ?_⟩
  · simp [F5Driver.load_replace_candidate, truthy, hc]
  · simp [F5Driver.load_merge_candidate, truthy, hc]
  · simp [F5Driver.load_replace_candidate, truthy, hfn, hup]
  · simp [F5Driver.load_replace_candidate, truthy, hfn, hup]
  · simp [F5Driver.load_replace_candidate, truthy, hfn, hup]
  · simp [F5Driver.load_merge_candidate, truthy, hfn, hup]
  · simp [F5Driver.load_merge_candidate, truthy, hfn, hup]
  · simp [F5Driver.load_merge_candidate, truthy, hfn, hup]
  · simp [F5Driver.load_replace_candidate, truthy, hfn, hup2, hcmdr]
  · simp [F5Driver.load_replace_candidate, truthy, hfn, hup2, hcmdr]
  · simp [F5Driver.load_replace_candidate, truthy, hfn, hup2, hcmdr]
  · simp [F5Driver.load_merge_candidate, truthy, hfn, hup2, hcmdm]
  · simp [F5Driver.load_merge_candidate, truthy, hfn, hup2, hcmdm]
  · simp [F5Driver.load_merge_candidate, truthy, hfn, hup2, hcmdm]

/-- C2 witness: the theorem applied to concrete oracles — one whose upload
fails, one whose sys/config load fails — a fresh driver, an inline payload
and the filename "cand.scf". -/
theorem C2_witness :
    (F5Driver.load_replace_candidate s0 devUploadFail none (some "payload")).2.2 =
      .error (.notImplemented none) ∧
    (F5Driver.load_merge_candidate s0 devUploadFail none (some "payload")).2.2 =
      .error (.notImplemented none) ∧
    (F5Driver.load_replace_candidate s0 devUploadFail (some "cand.scf") none).2.2 =
      .error (.replaceConfigException (.connectionError "F5 API Error: upload refused")) ∧
    (F5Driver.load_replace_candidate s0 devUploadFail (some "cand.scf") none).1.filename =
      some (basename "cand.scf") ∧
    (F5Driver.load_replace_candidate s0 devUploadFail (some "cand.scf") none).1.config_replace =
      true ∧
    (F5Driver.load_merge_candidate s0 devUploadFail (some "cand.scf") none).2.2 =
      .error (.mergeConfigException (.connectionError "F5 API Error: upload refused")) ∧
    (F5Driver.load_merge_candidate s0 devUploadFail (some "cand.scf") none).1.filename =
      some (basename "cand.scf") ∧
    (F5Driver.load_merge_candidate s0 devUploadFail (some "cand.scf") none).1.config_replace =
      false ∧
    (F5Driver.load_replace_candidate s0 devLoadCmdFail (some "cand.scf") none).2.2 =
      .error (.replaceConfigException (DevErr.restAPIError "load failed").toErr) ∧
    (F5Driver.load_replace_candidate s0 devLoadCmdFail (some "cand.scf") none).1.filename =
      some (basename "cand.scf") ∧
    (F5Driver.load_replace_candidate s0 devLoadCmdFail (some "cand.scf") none).1.config_replace =
      true ∧
    (F5Driver.load_merge_candidate s0 devLoadCmdFail (some "cand.scf") none).2.2 =
      .error (.mergeConfigException (DevErr.restAPIError "load failed").toErr) ∧
    (F5Driver.load_merge_candidate s0 devLoadCmdFail (some "cand.scf") none).1.filename =
      some (basename "cand.scf") ∧
    (F5Driver.load_merge_candidate s0 devLoadCmdFail (some "cand.scf") none).1.config_replace =
      false :=
  C2_staging_failure_behaviour devUploadFail devLoadCmdFail s0 "payload" "cand.scf"
    (.connectionError "F5 API Error: upload refused") (.restAPIError "load failed")
    (by decide) (by decide) (by decide) (by decide) (by decide) (by decide)

/-- C3 (amended): the remembered filename, the device-side load path and the
device-side discard path all use the basename of the staged filename with
directory components stripped, but the server-side staging relocation issued
by `_upload_scf` embeds the caller-supplied filename argument verbatim,
directory components included. -/
theorem C3_basename_usage (dev : DeviceOracle) (self : F5Driver) (fn out : String)
    (hfn : fn ≠ "")
    (hup : dev.uploadR "/mgmt/shared/file-transfer/uploads" fn = .ok ())
    (hmv : dev.commandR "/mgmt/tm/util/bash"
      (bashData ("mv /var/config/rest/downloads/" ++ fn ++ " /tmp/")) = .ok out) :
    (F5Driver.load_replace_candidate self dev (some fn) none).1.filename =
      some (basename fn) ∧
    (F5Driver.load_replace_candidate self dev (some fn) none).2.1 =
      [DeviceCall.upload "/mgmt/shared/file-transfer/uploads" fn,
       DeviceCall.command "/mgmt/tm/util/bash"
         (bashData ("mv /var/config/rest/downloads/" ++ fn ++ " /tmp/")),
       DeviceCall.command "/mgmt/tm/sys/config"
         (CommandData.loadConfig ("/tmp/" ++ basename fn) false)] ∧
    (F5Driver.discard_config
        (F5Driver.load_replace_candidate self dev (some fn) none).1 dev).2.1 =
      [DeviceCall.command "/mgmt/tm/util/bash"
        (bashData ("rm /var/config/rest/downloads/" ++ basename fn))] := by
  have hstate : (F5Driver.load_replace_candidate self dev (some fn) none).1 =
      { self with config_replace := true, filename := some (basename fn) } := by
    cases hc2 : dev.commandR "/mgmt/tm/sys/config"
        (CommandData.loadConfig ("/tmp/" ++ basename fn) false) <;>
      simp [F5Driver.load_replace_candidate, truthy, hfn,
        uploadScf_ok dev fn out hup hmv, hc2]
  refine ⟨?_, ?_, ?_⟩
  · rw [hstate]
  · cases hc2 : dev.commandR "/mgmt/tm/sys/config"
        (CommandData.loadConfig ("/tmp/" ++ basename fn) false) <;>
      simp [F5Driver.load_replace_candidate, truthy, hfn,
        uploadScf_ok dev fn out hup hmv, hc2]
  · rw [hstate]
    cases hc3 : dev.commandR "/mgmt/tm/util/bash"
        (bashData ("rm /var/config/rest/downloads/" ++ basename fn)) with
    | error e => cases e <;> simp [F5Driver.discard_config, pyStr, hc3]
    | ok o => simp [F5Driver.discard_config, pyStr, hc3]

/-- C3 witness: the theorem applied to the all-succeeding oracle and the
path "conf/cand.scf". -/
theorem C3_witness :
    (F5Driver.load_replace_candidate s0 devOK (some "conf/cand.scf") none).1.filename =
      some (basename "conf/cand.scf") ∧
    (F5Driver.load_replace_candidate s0 devOK (some "conf/cand.scf") none).2.1 =
      [DeviceCall.upload "/mgmt/shared/file-transfer/uploads" "conf/cand.scf",
       DeviceCall.command "/mgmt/tm/util/bash"
         (bashData ("mv /var/config/rest/downloads/" ++ "conf/cand.scf" ++ " /tmp/")),
       DeviceCall.command "/mgmt/tm/sys/config"
         (CommandData.loadConfig ("/tmp/" ++ basename "conf/cand.scf") false)] ∧
    (F5Driver.discard_config
        (F5Driver.load_replace_candidate s0 devOK (some "conf/cand.scf") none).1 devOK).2.1 =
      [DeviceCall.command "/mgmt/tm/util/bash"
        (bashData ("rm /var/config/rest/downloads/" ++ basename "conf/cand.scf"))] :=
  C3_basename_usage devOK s0 "conf/cand.scf" "out" (by decide) rfl rfl

end NapalmF5
